import Mathlib

/-!
Shallow embedding of `src/server.py`, the Inaya school-administration backend.

All persisted state is JSON documents on a remote FTP filesystem rooted at
`BASE_PATH`.  Every document the modelled endpoints touch lives directly in
that one directory, so the store is modelled as an association list from file
name (relative to `BASE_PATH`) to file content.  A file content is either
bytes that decode as JSON (carrying the decoded value) or bytes on which
`json.loads` raises.

Python dictionaries are modelled as insertion-ordered association lists with
the assignment, deletion, membership and `.get` operations of the source.
Python `bool` is kept apart from `int` because booleans are numeric in
Python arithmetic; floats never occur in the documents the endpoints write
and are not modelled.  Operations that would raise `TypeError` in the source
(arithmetic or subscripting on a value of the wrong shape) are modelled as
an error outcome, matching the endpoints' `except Exception` handlers that
turn any such exception into an error response without a write.  Connection
and credential failures are outside the modelled state: the theorems below
describe runs in which the FTP server is reachable.
-/

/-- JSON-like values as stored in the remote documents. -/
inductive PyVal where
  | null
  | bool (b : Bool)
  | int (n : Int)
  | str (s : String)
  | list (xs : List PyVal)
  | dict (entries : List (String × PyVal))
deriving Repr

abbrev PyDict := List (String × PyVal)

/-- Python `d[k]` lookup (first occurrence wins; real dicts have unique keys). -/
def dlookup : PyDict → String → Option PyVal
  | [], _ => Option.none
  | (k', v) :: rest, k => if k' = k then some v else dlookup rest k

/-- Python `d[k] = v`: replace in place if the key exists, else append. -/
def dinsert : PyDict → String → PyVal → PyDict
  | [], k, v => [(k, v)]
  | (k', v') :: rest, k, v =>
    if k' = k then (k, v) :: rest else (k', v') :: dinsert rest k v

/-- Python `del d[k]` (on a key known to be present). -/
def derase : PyDict → String → PyDict
  | [], _ => []
  | (k', v') :: rest, k => if k' = k then rest else (k', v') :: derase rest k

/-- Python `k in d`. -/
def dmem (d : PyDict) (k : String) : Bool := (dlookup d k).isSome

/-- Python `d.update(u)`: assign each key of `u` into `d`, in order. -/
def dupdate (d u : PyDict) : PyDict := u.foldl (fun acc kv => dinsert acc kv.1 kv.2) d

/-- The numeric view used by Python integer arithmetic: `int` and `bool`
    are numbers, everything else raises `TypeError` when added/subtracted. -/
def pyNum : PyVal → Option Int
  | .int n => some n
  | .bool b => some (if b then 1 else 0)
  | _ => Option.none

/-- `d.get(k, 0)` followed by use in integer arithmetic: a missing key
    contributes `0`; a non-numeric value makes the arithmetic raise. -/
def getNum (d : PyDict) (k : String) : Option Int :=
  match dlookup d k with
  | Option.none => some 0
  | some v => pyNum v

/-- Python truthiness of a JSON value. -/
def pyTruthy : PyVal → Bool
  | .null => false
  | .bool b => b
  | .int n => n != 0
  | .str s => !s.isEmpty
  | .list xs => !xs.isEmpty
  | .dict d => !d.isEmpty

/-- Content of a remote file: bytes that decode as JSON, or bytes on which
    `json.loads` raises. -/
inductive FileContent where
  | json (v : PyVal)
  | invalid
deriving Repr

/-- The remote `BASE_PATH` directory: file name (relative to `BASE_PATH`)
    to content.  The class rosters, `fees.json` and `invoice_records.json`
    all live here. -/
abbrev FS := List (String × FileContent)

def flookup : FS → String → Option FileContent
  | [], _ => Option.none
  | (k', v) :: rest, k => if k' = k then some v else flookup rest k

/-- A full-file overwrite (`STOR`/upload of the serialized document). -/
def fwrite : FS → String → FileContent → FS
  | [], k, v => [(k, v)]
  | (k', v') :: rest, k, v =>
    if k' = k then (k, v) :: rest else (k', v') :: fwrite rest k v

/-- `filename in ftp.nlst()`. -/
def fmem (fs : FS) (k : String) : Bool := (flookup fs k).isSome

/-- The ASCII whitespace stripped by Python `str.strip()`. -/
def pyIsSpace (c : Char) : Bool :=
  c = ' ' || c = '\t' || c = '\n' || c = '\r' || c = '\x0b' || c = '\x0c'

/-- Python `str.strip()`. -/
def strStrip (s : String) : String :=
  String.mk (((s.data.dropWhile pyIsSpace).reverse.dropWhile pyIsSpace).reverse)

/-- Python `str.lower()` on the ASCII range the endpoints receive. -/
def charLower (c : Char) : Char :=
  if 'A' ≤ c ∧ c ≤ 'Z' then Char.ofNat (c.toNat + 32) else c

def strLower (s : String) : String := String.mk (s.data.map charLower)

/-- Python `str.endswith(t)`. -/
def strEndsWith (s t : String) : Bool := t.data.isSuffixOf s.data

/-- Python `s[:-n]` for `n ≤ len(s)`. -/
def strDropRight (s : String) (n : Nat) : String :=
  String.mk (s.data.take (s.data.length - n))

/-- `normalize_class_name` (server.py:77): strip surrounding whitespace,
    lower-case, drop a trailing `.json`. -/
def normalize_class_name (class_name : String) : String :=
  let name := strLower (strStrip class_name)
  if strEndsWith name ".json" then strDropRight name 5 else name

/-- `ftp_read` (server.py:89): a missing path yields the empty dict; an
    existing path is downloaded and passed to `json.loads`, whose failure
    propagates to the caller as an exception (`Except.error`). -/
def ftp_read (fs : FS) (path : String) : Except Unit PyVal :=
  match flookup fs path with
  | Option.none => .ok (.dict [])
  | some (.json v) => .ok v
  | some .invalid => .error ()

/-- Error outcomes of the endpoints: the tag names the condition the
    source reports (HTTP status code or `status: error` message kind). -/
inductive Err where
  | badRequest | conflict | notFound | duplicate
  | storeError | decodeError | typeError | pdfError
deriving DecidableEq, Repr

/-- `ensure_students_key` (server.py:708). -/
def ensure_students_key : PyVal → PyDict
  | .dict d => if dmem d "students" then d else dinsert d "students" (.dict [])
  | _ => [("students", .dict [])]

/-- `class_data["students"]` as used by the student endpoints: they proceed
    only when the value is a dict.  A non-dict value makes the source raise
    at the membership test or at indexing (for a `str` or `list` value the
    membership test itself succeeds, but every path that continues past it
    raises), which the surrounding `except` turns into an error response
    without a write; those corners are folded into the error outcome here. -/
def studentsDict (class_data : PyDict) : Option PyDict :=
  match dlookup class_data "students" with
  | some (.dict s) => some s
  | _ => Option.none

/-- `GET /students/(class_name)` (server.py:360), the first of the two
    handlers registered on this route and hence the one Starlette serves.
    It interpolates the raw, un-normalized `class_name` into the path,
    reads via `ftp_read`, and reports an empty or falsy document as an
    error response with an empty `students` payload; an exception from
    `ftp_read` (undecodable JSON) is caught and reported the same way. -/
structure GetStudentsResp where
  status : String
  students : PyVal
deriving Repr

def get_students (fs : FS) (class_name : String) : GetStudentsResp :=
  match ftp_read fs (class_name ++ ".json") with
  | .error _ => ⟨"error", .dict []⟩
  | .ok students_db =>
    if pyTruthy students_db then ⟨"success", students_db⟩
    else ⟨"error", .dict []⟩

/-- `POST /classes/create` (server.py:259).  The duplicate check consults
    the directory listing; on success an empty dict is uploaded as the
    roster file.  (The directory itself is taken to exist; the source
    auto-creates it and retries.) -/
def create_class (fs : FS) (class_name : String) : Except Err String × FS :=
  let n := normalize_class_name class_name
  if n = "" then (.error .badRequest, fs)
  else if fmem fs (n ++ ".json") then (.error .conflict, fs)
  else (.ok n, fwrite fs (n ++ ".json") (.json (.dict [])))

/-- `GET /fees` (server.py:472): a missing `fees.json` yields the empty
    mapping; undecodable bytes raise `json.JSONDecodeError`, reported as an
    HTTP 500; a decoded non-dict raises at `.get`, also reported as 500. -/
def get_all_fees (fs : FS) : Except Err PyVal :=
  match flookup fs "fees.json" with
  | Option.none => .ok (.dict [])
  | some .invalid => .error .decodeError
  | some (.json fee_data) =>
    match fee_data with
    | .dict d => .ok ((dlookup d "class_fees").getD (.dict []))
    | _ => .error .typeError

/-- `get_class_total_fees` (server.py:716): every failure (missing or
    undecodable `fees.json`, wrong shape, missing keys) collapses to `0`
    through the bare `except` clauses and the chained `.get` defaults. -/
def get_class_total_fees (fs : FS) (class_name : String) : PyVal :=
  let n := normalize_class_name class_name
  match flookup fs "fees.json" with
  | some (.json (.dict d)) =>
    match dlookup d "class_fees" with
    | some (.dict cf) =>
      match dlookup cf n with
      | some (.dict entry) => (dlookup entry "total_fees").getD (.int 0)
      | some _ => .int 0
      | Option.none => .int 0
    | some _ => .int 0
    | Option.none => .int 0
  | _ => .int 0

/-- `POST /fees/set` (server.py:515): missing or undecodable `fees.json`
    starts from the default, a decoded document of the wrong shape raises
    before any write. -/
def set_fee_structure (fs : FS) (class_name : String)
    (tuition_fees lab_fees miscellaneous_fees : Int) : Except Err Int × FS :=
  let n := normalize_class_name class_name
  let total_fees := tuition_fees + lab_fees + miscellaneous_fees
  let all_fees : PyVal :=
    match flookup fs "fees.json" with
    | some (.json v) => v
    | _ => .dict [("class_fees", .dict [])]
  match all_fees with
  | .dict d =>
    match dlookup d "class_fees" with
    | some (.dict cf) =>
      let entry : PyVal := .dict
        [("class_name", .str n), ("tuition_fees", .int tuition_fees),
         ("lab_fees", .int lab_fees), ("miscellaneous_fees", .int miscellaneous_fees),
         ("total_fees", .int total_fees)]
      let d' := dinsert d "class_fees" (.dict (dinsert cf n entry))
      (.ok total_fees, fwrite fs "fees.json" (.json (.dict d')))
    | _ => (.error .typeError, fs)
  | _ => (.error .typeError, fs)

/-- `DELETE /fees/delete` (server.py:591). -/
def delete_fee_structure (fs : FS) (class_name : String) : Except Err Unit × FS :=
  let n := normalize_class_name class_name
  match flookup fs "fees.json" with
  | Option.none => (.error .notFound, fs)
  | some .invalid => (.error .decodeError, fs)
  | some (.json all_fees) =>
    match all_fees with
    | .dict d =>
      match (dlookup d "class_fees").getD (.dict []) with
      | .dict cf =>
        if dmem cf n = false then (.error .notFound, fs)
        else
          let d' := dinsert d "class_fees" (.dict (derase cf n))
          (.ok (), fwrite fs "fees.json" (.json (.dict d')))
      | _ => (.error .typeError, fs)
    | _ => (.error .typeError, fs)

structure AddStudentRequest where
  class_name : String
  student_id : String
  rollno : String
  sectionName : String
  father : String
  phone : String
  email : String
  address : String
  dob : String
  aadhar : String
  sex : String

/-- The roster document as `add_student` reads it (server.py:1007): a
    missing or undecodable file falls back to the fresh default through the
    bare `except`. -/
def readRosterForAdd (fs : FS) (n : String) : PyDict :=
  match flookup fs (n ++ ".json") with
  | some (.json v) => ensure_students_key v
  | _ => [("students", .dict [])]

/-- The record inserted by `add_student` (server.py:1025), fields in source
    order.  `sectionName` models the source's `section` field. -/
def newStudentRecord (r : AddStudentRequest) (n : String) (total_fees : PyVal) : PyDict :=
  [("father", .str r.father), ("aadhar", .str r.aadhar), ("address", .str r.address),
   ("phone", .str r.phone), ("email", .str r.email), ("dob", .str r.dob),
   ("sex", .str r.sex), ("totalfees", total_fees), ("feespaid", .int 0),
   ("feesremaining", total_fees), ("concession", .int 0), ("sats", .str ""),
   ("class", .str n), ("section", .str r.sectionName), ("rollno", .str r.rollno),
   ("test", .dict []), ("performance", .dict [])]

/-- `POST /students/add` (server.py:991). -/
def add_student (fs : FS) (r : AddStudentRequest) : Except Err PyVal × FS :=
  let n := normalize_class_name r.class_name
  let total_fees := get_class_total_fees fs n
  let class_data := readRosterForAdd fs n
  match studentsDict class_data with
  | Option.none => (.error .typeError, fs)
  | some students =>
    if dmem students r.student_id then (.error .duplicate, fs)
    else
      let record := newStudentRecord r n total_fees
      let class_data' := dinsert class_data "students"
        (.dict (dinsert students r.student_id (.dict record)))
      (.ok (.dict record), fwrite fs (n ++ ".json") (.json (.dict class_data')))

/-- Whether the update mapping touches a fee field (server.py:1107). -/
def feeFieldTouched (updates : PyDict) : Bool :=
  dmem updates "totalfees" || dmem updates "feespaid" || dmem updates "concession"

/-- `POST /students/update` (server.py:1078).  The roster file must exist
    and decode; the student key must be present; the update mapping is
    merged in with `dict.update`; if a fee field was among the updated keys
    `feesremaining` is recomputed after the merge. -/
def update_student (fs : FS) (class_name student_id : String) (updates : PyDict) :
    Except Err Unit × FS :=
  let n := normalize_class_name class_name
  match flookup fs (n ++ ".json") with
  | Option.none => (.error .storeError, fs)
  | some .invalid => (.error .decodeError, fs)
  | some (.json v) =>
    let class_data := ensure_students_key v
    match studentsDict class_data with
    | Option.none => (.error .typeError, fs)
    | some students =>
      match dlookup students student_id with
      | Option.none => (.error .notFound, fs)
      | some stv =>
        match stv with
        | .dict st =>
          let st1 := dupdate st updates
          if feeFieldTouched updates then
            match getNum st1 "totalfees", getNum st1 "concession", getNum st1 "feespaid" with
            | some t, some c, some p =>
              let st2 := dinsert st1 "feesremaining" (.int (t - c - p))
              let class_data' := dinsert class_data "students"
                (.dict (dinsert students student_id (.dict st2)))
              (.ok (), fwrite fs (n ++ ".json") (.json (.dict class_data')))
            | _, _, _ => (.error .typeError, fs)
          else
            let class_data' := dinsert class_data "students"
              (.dict (dinsert students student_id (.dict st1)))
            (.ok (), fwrite fs (n ++ ".json") (.json (.dict class_data')))
        | _ => (.error .typeError, fs)

structure CollectFeeRequest where
  class_name : String
  student_id : String
  amount : Int
  generate_invoice : Bool
  created_by : String
  note : String

structure CollectOk where
  fees_paid : Int
  fees_remaining : Int
  invoice_number : Option Int
deriving Repr, DecidableEq

/-- `get_next_invoice_number` (server.py:744): every failure path (missing
    or undecodable ledger, non-dict document) collapses to `1`. -/
def get_next_invoice_number (fs : FS) : PyVal :=
  match flookup fs "invoice_records.json" with
  | some (.json (.dict d)) => (dlookup d "next_invoice_number").getD (.int 1)
  | _ => .int 1

def zeros : Nat → String
  | 0 => ""
  | k + 1 => "0" ++ zeros k

/-- Python's zero-padded 05d format, as in the invoice labels. -/
def pad5 (n : Int) : String :=
  if n < 0 then
    let s := toString n.natAbs
    "-" ++ (if s.length < 4 then zeros (4 - s.length) ++ s else s)
  else
    let s := toString n
    if s.length < 5 then zeros (5 - s.length) ++ s else s

def inv_label (n : Int) : String := "INV-" ++ pad5 n

/-- The invoice record appended to the ledger (server.py:1216).  `today`
    stands for `datetime.now().strftime` of the wall clock. -/
def mkInvoice (r : CollectFeeRequest) (n today : String) (invoice_number : Int) : PyVal :=
  .dict [("invoice_number", .str (inv_label invoice_number)),
         ("student_name", .str r.student_id),
         ("class", .str n),
         ("amount_paid", .int r.amount),
         ("date", .str today),
         ("created_by", .str r.created_by),
         ("note", .str r.note),
         ("items", .list [.dict [("description", .str "School Fees"),
                               ("amount", .int r.amount)]])]

/-- `save_invoice_record` (server.py:770): a missing or undecodable ledger
    starts from the default; a decoded ledger of the wrong shape raises
    before any write; `write_ok` models whether the `STOR` upload succeeds
    (a failed upload raises and leaves the file as it was). -/
def save_invoice_record (fs : FS) (invoice : PyVal) (write_ok : Bool) : Except Err FS :=
  let invoice_data : PyVal :=
    match flookup fs "invoice_records.json" with
    | some (.json v) => v
    | _ => .dict [("invoices", .list []), ("next_invoice_number", .int 1)]
  match invoice_data with
  | .dict d =>
    match dlookup d "invoices" with
    | some (.list invs) =>
      let d1 := dinsert d "invoices" (.list (invs ++ [invoice]))
      match pyNum ((dlookup d1 "next_invoice_number").getD (.int 1)) with
      | some nv =>
        let d2 := dinsert d1 "next_invoice_number" (.int (nv + 1))
        if write_ok then .ok (fwrite fs "invoice_records.json" (.json (.dict d2)))
        else .error .storeError
      | Option.none => .error .typeError
    | _ => .error .typeError
  | _ => .error .typeError

/-- `POST /students/collect-fee` (server.py:1140).  The roster document is
    updated and uploaded first; only then, when `generate_invoice` is set,
    does the invoice phase run: invoice-number lookup, receipt rendering
    (`pdf_ok` models whether `generate_receipt_pdf` succeeds), and the
    ledger append.  A failure in that phase is caught by the endpoint's
    handler and reported as an error response, after the roster write. -/
def collect_student_fee (fs : FS) (r : CollectFeeRequest) (today : String)
    (pdf_ok ledger_write_ok : Bool) : Except Err CollectOk × FS :=
  let n := normalize_class_name r.class_name
  match flookup fs (n ++ ".json") with
  | Option.none => (.error .storeError, fs)
  | some .invalid => (.error .decodeError, fs)
  | some (.json v) =>
    let class_data := ensure_students_key v
    match studentsDict class_data with
    | Option.none => (.error .typeError, fs)
    | some students =>
      match dlookup students r.student_id with
      | Option.none => (.error .notFound, fs)
      | some stv =>
        match stv with
        | .dict st =>
          match getNum st "feespaid" with
          | Option.none => (.error .typeError, fs)
          | some current_paid =>
            let paid := current_paid + r.amount
            let st1 := dinsert st "feespaid" (.int paid)
            match getNum st1 "totalfees", getNum st1 "concession" with
            | some t, some c =>
              let remaining := t - c - paid
              let st2 := dinsert st1 "feesremaining" (.int remaining)
              let class_data' := dinsert class_data "students"
                (.dict (dinsert students r.student_id (.dict st2)))
              let fs1 := fwrite fs (n ++ ".json") (.json (.dict class_data'))
              if r.generate_invoice = false then
                (.ok ⟨paid, remaining, Option.none⟩, fs1)
              else
                match pyNum (get_next_invoice_number fs1) with
                | Option.none => (.error .typeError, fs1)
                | some invoice_number =>
                  if pdf_ok = false then (.error .pdfError, fs1)
                  else
                    match save_invoice_record fs1 (mkInvoice r n today invoice_number)
                        ledger_write_ok with
                    | .error e => (.error e, fs1)
                    | .ok fs2 => (.ok ⟨paid, remaining, some invoice_number⟩, fs2)
            | _, _ => (.error .typeError, fs)
        | _ => (.error .typeError, fs)

/-- `POST /students/update-concession` (server.py:1267): sets `concession`
    to the absolute request value, then recomputes `feesremaining` from
    `totalfees`, the request's concession, and `feespaid`. -/
def update_student_concession (fs : FS) (class_name student_id : String)
    (concession : Int) : Except Err (Int × Int) × FS :=
  let n := normalize_class_name class_name
  match flookup fs (n ++ ".json") with
  | Option.none => (.error .storeError, fs)
  | some .invalid => (.error .decodeError, fs)
  | some (.json v) =>
    let class_data := ensure_students_key v
    match studentsDict class_data with
    | Option.none => (.error .typeError, fs)
    | some students =>
      match dlookup students student_id with
      | Option.none => (.error .notFound, fs)
      | some stv =>
        match stv with
        | .dict st =>
          let st1 := dinsert st "concession" (.int concession)
          match getNum st1 "totalfees", getNum st1 "feespaid" with
          | some t, some p =>
            let remaining := t - concession - p
            let st2 := dinsert st1 "feesremaining" (.int remaining)
            let class_data' := dinsert class_data "students"
              (.dict (dinsert students student_id (.dict st2)))
            (.ok (concession, remaining), fwrite fs (n ++ ".json") (.json (.dict class_data')))
          | _, _ => (.error .typeError, fs)
        | _ => (.error .typeError, fs)

/-- The student record stored for `student_id` in the roster of
    `class_name`, read the way the student endpoints read it. -/
def rosterStudent (fs : FS) (class_name student_id : String) : Option PyDict :=
  match flookup fs (normalize_class_name class_name ++ ".json") with
  | some (.json v) =>
    match studentsDict (ensure_students_key v) with
    | some students =>
      match dlookup students student_id with
      | some (.dict st) => some st
      | _ => Option.none
    | Option.none => Option.none
  | _ => Option.none

/-! ### Dictionary and store lemmas -/

theorem dlookup_dinsert_self (d : PyDict) (k : String) (v : PyVal) :
    dlookup (dinsert d k v) k = some v := by
  induction d with
  | nil => simp [dinsert, dlookup]
  | cons hd tl ih =>
    obtain ⟨k', v'⟩ := hd
    by_cases h : k' = k
    · simp [dinsert, h, dlookup]
    · simp [dinsert, h, dlookup, ih]

theorem dlookup_dinsert_ne (d : PyDict) (k k' : String) (v : PyVal) (h : k' ≠ k) :
    dlookup (dinsert d k v) k' = dlookup d k' := by
  induction d with
  | nil => simp [dinsert, dlookup, Ne.symm h]
  | cons hd tl ih =>
    obtain ⟨k'', v''⟩ := hd
    by_cases h2 : k'' = k
    · subst h2
      simp [dinsert, dlookup, Ne.symm h]
    · simp [dinsert, h2, dlookup, ih]

theorem dmem_dinsert_self (d : PyDict) (k : String) (v : PyVal) :
    dmem (dinsert d k v) k = true := by
  simp [dmem, dlookup_dinsert_self]

theorem getNum_dinsert_int_self (d : PyDict) (k : String) (n : Int) :
    getNum (dinsert d k (.int n)) k = some n := by
  simp [getNum, dlookup_dinsert_self, pyNum]

theorem getNum_dinsert_ne (d : PyDict) (k k' : String) (v : PyVal) (h : k' ≠ k) :
    getNum (dinsert d k v) k' = getNum d k' := by
  simp [getNum, dlookup_dinsert_ne d k k' v h]

theorem flookup_fwrite_self (fs : FS) (k : String) (v : FileContent) :
    flookup (fwrite fs k v) k = some v := by
  induction fs with
  | nil => simp [fwrite, flookup]
  | cons hd tl ih =>
    obtain ⟨k', v'⟩ := hd
    by_cases h : k' = k
    · simp [fwrite, h, flookup]
    · simp [fwrite, h, flookup, ih]

theorem flookup_fwrite_ne (fs : FS) (k k' : String) (v : FileContent) (h : k' ≠ k) :
    flookup (fwrite fs k v) k' = flookup fs k' := by
  induction fs with
  | nil => simp [fwrite, flookup, Ne.symm h]
  | cons hd tl ih =>
    obtain ⟨k'', v''⟩ := hd
    by_cases h2 : k'' = k
    · subst h2
      simp [fwrite, flookup, Ne.symm h]
    · simp [fwrite, h2, flookup, ih]

theorem ensure_students_key_of_mem (d : PyDict) (h : dmem d "students" = true) :
    ensure_students_key (.dict d) = d := by
  simp [ensure_students_key, h]

/-- Reading back the roster document written by the student endpoints. -/
theorem rosterStudent_after_write (fs : FS) (cls sid : String)
    (class_data students st' : PyDict) :
    rosterStudent (fwrite fs (normalize_class_name cls ++ ".json")
        (.json (.dict (dinsert class_data "students"
          (.dict (dinsert students sid (.dict st'))))))) cls sid = some st' := by
  unfold rosterStudent
  simp only [flookup_fwrite_self]
  rw [ensure_students_key_of_mem _ (dmem_dinsert_self _ _ _)]
  simp [studentsDict, dlookup_dinsert_self]

/-- Inverting a successful roster-record read. -/
theorem rosterStudent_inv {fs : FS} {cls sid : String} {st : PyDict}
    (h : rosterStudent fs cls sid = some st) :
    ∃ v students, flookup fs (normalize_class_name cls ++ ".json") = some (.json v) ∧
      studentsDict (ensure_students_key v) = some students ∧
      dlookup students sid = some (.dict st) := by
  unfold rosterStudent at h
  split at h
  case _ v heq =>
    split at h
    case _ students heq2 =>
      split at h
      case _ st' heq3 =>
        exact ⟨v, students, heq, heq2, by rw [heq3, Option.some_inj.mp h]⟩
      case _ => exact absurd h (by simp)
    case _ => exact absurd h (by simp)
  case _ => exact absurd h (by simp)

/-- The record stored by one `collect_fee` write. -/
def collectRecord (st : PyDict) (t p c a : Int) : PyDict :=
  dinsert (dinsert st "feespaid" (.int (p + a))) "feesremaining" (.int (t - c - (p + a)))

/-- The record stored by one `update_concession` write. -/
def concessionRecord (st : PyDict) (t p cNew : Int) : PyDict :=
  dinsert (dinsert st "concession" (.int cNew)) "feesremaining" (.int (t - cNew - p))

/-- One `collect_fee` call with `generate_invoice = False` on a student
    whose fee fields are numeric. -/
theorem collect_fee_step (fs : FS) (cls sid today cb note : String) (a : Int)
    (p1 p2 : Bool) (st : PyDict) (t p c : Int)
    (hst : rosterStudent fs cls sid = some st)
    (ht : getNum st "totalfees" = some t)
    (hp : getNum st "feespaid" = some p)
    (hc : getNum st "concession" = some c) :
    ∃ fs', collect_student_fee fs ⟨cls, sid, a, false, cb, note⟩ today p1 p2 =
        (.ok ⟨p + a, t - c - (p + a), Option.none⟩, fs') ∧
      rosterStudent fs' cls sid = some (collectRecord st t p c a) ∧
      ∀ q, q ≠ normalize_class_name cls ++ ".json" → flookup fs' q = flookup fs q := by
  obtain ⟨v, students, hf, hsd, hsl⟩ := rosterStudent_inv hst
  have h1 : getNum (dinsert st "feespaid" (.int (p + a))) "totalfees" = some t := by
    rw [getNum_dinsert_ne _ _ _ _ (by decide)]; exact ht
  have h2 : getNum (dinsert st "feespaid" (.int (p + a))) "concession" = some c := by
    rw [getNum_dinsert_ne _ _ _ _ (by decide)]; exact hc
  refine ⟨fwrite fs (normalize_class_name cls ++ ".json")
      (.json (.dict (dinsert (ensure_students_key v) "students"
        (.dict (dinsert students sid (.dict (collectRecord st t p c a))))))), ?_, ?_, ?_⟩
  · simp only [collect_student_fee, hf, hsd, hsl, hp, h1, h2, collectRecord]
    exact if_pos trivial
  · exact rosterStudent_after_write fs cls sid (ensure_students_key v) students _
  · intro q hq
    exact flookup_fwrite_ne _ _ _ _ hq

/-- One `update_concession` call on a student whose fee fields are numeric. -/
theorem update_concession_step (fs : FS) (cls sid : String) (cNew : Int)
    (st : PyDict) (t p : Int)
    (hst : rosterStudent fs cls sid = some st)
    (ht : getNum st "totalfees" = some t)
    (hp : getNum st "feespaid" = some p) :
    ∃ fs', update_student_concession fs cls sid cNew =
        (.ok (cNew, t - cNew - p), fs') ∧
      rosterStudent fs' cls sid = some (concessionRecord st t p cNew) ∧
      ∀ q, q ≠ normalize_class_name cls ++ ".json" → flookup fs' q = flookup fs q := by
  obtain ⟨v, students, hf, hsd, hsl⟩ := rosterStudent_inv hst
  have h1 : getNum (dinsert st "concession" (.int cNew)) "totalfees" = some t := by
    rw [getNum_dinsert_ne _ _ _ _ (by decide)]; exact ht
  have h2 : getNum (dinsert st "concession" (.int cNew)) "feespaid" = some p := by
    rw [getNum_dinsert_ne _ _ _ _ (by decide)]; exact hp
  refine ⟨fwrite fs (normalize_class_name cls ++ ".json")
      (.json (.dict (dinsert (ensure_students_key v) "students"
        (.dict (dinsert students sid (.dict (concessionRecord st t p cNew))))))), ?_, ?_, ?_⟩
  · simp only [update_student_concession, hf, hsd, hsl, h1, h2, concessionRecord]
  · exact rosterStudent_after_write fs cls sid (ensure_students_key v) students _
  · intro q hq
    exact flookup_fwrite_ne _ _ _ _ hq

theorem collectRecord_fields (st : PyDict) (t p c a : Int)
    (ht : getNum st "totalfees" = some t)
    (hc : getNum st "concession" = some c) :
    getNum (collectRecord st t p c a) "totalfees" = some t ∧
    getNum (collectRecord st t p c a) "feespaid" = some (p + a) ∧
    getNum (collectRecord st t p c a) "concession" = some c ∧
    dlookup (collectRecord st t p c a) "feesremaining" = some (.int (t - c - (p + a))) := by
  refine ⟨?_, ?_, ?_, ?_⟩
  · rw [collectRecord, getNum_dinsert_ne _ _ _ _ (by decide),
      getNum_dinsert_ne _ _ _ _ (by decide)]
    exact ht
  · rw [collectRecord, getNum_dinsert_ne _ _ _ _ (by decide), getNum_dinsert_int_self]
  · rw [collectRecord, getNum_dinsert_ne _ _ _ _ (by decide),
      getNum_dinsert_ne _ _ _ _ (by decide)]
    exact hc
  · rw [collectRecord, dlookup_dinsert_self]

theorem concessionRecord_fields (st : PyDict) (t p cNew : Int)
    (ht : getNum st "totalfees" = some t)
    (hp : getNum st "feespaid" = some p) :
    getNum (concessionRecord st t p cNew) "totalfees" = some t ∧
    getNum (concessionRecord st t p cNew) "feespaid" = some p ∧
    getNum (concessionRecord st t p cNew) "concession" = some cNew ∧
    dlookup (concessionRecord st t p cNew) "feesremaining" = some (.int (t - cNew - p)) := by
  refine ⟨?_, ?_, ?_, ?_⟩
  · rw [concessionRecord, getNum_dinsert_ne _ _ _ _ (by decide),
      getNum_dinsert_ne _ _ _ _ (by decide)]
    exact ht
  · rw [concessionRecord, getNum_dinsert_ne _ _ _ _ (by decide),
      getNum_dinsert_ne _ _ _ _ (by decide)]
    exact hp
  · rw [concessionRecord, getNum_dinsert_ne _ _ _ _ (by decide), getNum_dinsert_int_self]
  · rw [concessionRecord, dlookup_dinsert_self]

/-! ### Sequences of fee operations on one student (claims C1, C8) -/

/-- One step of a sequential run on a single student: a `collect_fee` call
    (no invoice) or an `update_concession` call. -/
inductive FeeOp where
  | collect (amount : Int)
  | setConcession (c : Int)

def applyFeeOp (cls sid today : String) (fs : FS) : FeeOp → FS
  | .collect a => (collect_student_fee fs ⟨cls, sid, a, false, "Admin", ""⟩ today true true).2
  | .setConcession c => (update_student_concession fs cls sid c).2

def runFeeOps (cls sid today : String) (fs : FS) (ops : List FeeOp) : FS :=
  ops.foldl (applyFeeOp cls sid today) fs

/-- The sum of the amounts of the `collect` calls in a sequence. -/
def collectSum : List FeeOp → Int
  | [] => 0
  | .collect a :: rest => a + collectSum rest
  | .setConcession _ :: rest => collectSum rest

/-- The concession in force after a sequence, starting from `c0`. -/
def finalConc (c0 : Int) : List FeeOp → Int
  | [] => c0
  | .collect _ :: rest => finalConc c0 rest
  | .setConcession c :: rest => finalConc c rest

theorem collectSum_append_collect (ops : List FeeOp) (a : Int) :
    collectSum (ops ++ [.collect a]) = collectSum ops + a := by
  induction ops with
  | nil => simp [collectSum]
  | cons op rest ih =>
    cases op with
    | collect b => simp [collectSum, ih, Int.add_assoc]
    | setConcession c => simp [collectSum, ih]

theorem finalConc_append_collect (c0 : Int) (ops : List FeeOp) (a : Int) :
    finalConc c0 (ops ++ [.collect a]) = finalConc c0 ops := by
  induction ops generalizing c0 with
  | nil => simp [finalConc]
  | cons op rest ih =>
    cases op with
    | collect b => simp [finalConc, ih]
    | setConcession c => simp [finalConc, ih]

/-- Invariant of a run: the student record stays present, `totalfees` is
    untouched, `feespaid` accumulates the collected amounts, and
    `concession` follows the latest `update_concession`. -/
theorem runFeeOps_fields (cls sid today : String) (ops : List FeeOp) :
    ∀ (fs : FS) (st : PyDict) (t p c : Int),
    rosterStudent fs cls sid = some st →
    getNum st "totalfees" = some t →
    getNum st "feespaid" = some p →
    getNum st "concession" = some c →
    ∃ st', rosterStudent (runFeeOps cls sid today fs ops) cls sid = some st' ∧
      getNum st' "totalfees" = some t ∧
      getNum st' "feespaid" = some (p + collectSum ops) ∧
      getNum st' "concession" = some (finalConc c ops) := by
  induction ops with
  | nil =>
    intro fs st t p c h1 h2 h3 h4
    exact ⟨st, by simpa [runFeeOps] using h1, h2, by simpa [collectSum] using h3,
      by simpa [finalConc] using h4⟩
  | cons op rest ih =>
    intro fs st t p c h1 h2 h3 h4
    cases op with
    | collect a =>
      obtain ⟨fs', heq, hro, -⟩ :=
        collect_fee_step fs cls sid today "Admin" "" a true true st t p c h1 h2 h3 h4
      obtain ⟨ht', hp', hc', -⟩ := collectRecord_fields st t p c a h2 h4
      obtain ⟨st', hro', ht'', hp'', hc''⟩ :=
        ih fs' (collectRecord st t p c a) t (p + a) c hro ht' hp' hc'
    
      refine ⟨st', ?_, ht'', ?_, ?_⟩
      · simpa [runFeeOps, applyFeeOp, heq] using hro'
      · rw [hp'']
        simp [collectSum, Int.add_assoc]
      · simpa [finalConc] using hc''
    | setConcession cNew =>
      obtain ⟨fs', heq, hro, -⟩ :=
        update_concession_step fs cls sid cNew st t p h1 h2 h3
      obtain ⟨ht', hp', hc', -⟩ := concessionRecord_fields st t p cNew h2 h3
      obtain ⟨st', hro', ht'', hp'', hc''⟩ :=
        ih fs' (concessionRecord st t p cNew) t p cNew hro ht' hp' hc'
      refine ⟨st', ?_, ht'', ?_, ?_⟩
      · simpa [runFeeOps, applyFeeOp, heq] using hro'
      · simpa [collectSum] using hp''
      · simpa [finalConc] using hc''

/-! ### Claim C1 -/

/-- C1: for every student record and every sequence of `collect_fee` calls
    (amounts summed by `collectSum`, the last call a `collect`), interleaved
    with `update_concession` calls, the final stored record has `feespaid`
    equal to the starting `feespaid` plus the sum of the collected amounts,
    and `feesremaining` equal to `totalfees` minus the concession in force
    minus `feespaid`. -/
theorem C1_collect_fee_sequence (fs : FS) (cls sid today : String)
    (ops : List FeeOp) (aLast : Int) (st : PyDict) (t p0 c0 : Int)
    (hst : rosterStudent fs cls sid = some st)
    (ht : getNum st "totalfees" = some t)
    (hp : getNum st "feespaid" = some p0)
    (hc : getNum st "concession" = some c0) :
    ∃ st', rosterStudent (runFeeOps cls sid today fs (ops ++ [.collect aLast])) cls sid
        = some st' ∧
      getNum st' "feespaid" = some (p0 + collectSum (ops ++ [.collect aLast])) ∧
      getNum st' "totalfees" = some t ∧
      getNum st' "concession" = some (finalConc c0 (ops ++ [.collect aLast])) ∧
      dlookup st' "feesremaining" = some (.int (t - finalConc c0 (ops ++ [.collect aLast])
        - (p0 + collectSum (ops ++ [.collect aLast])))) := by
  obtain ⟨st1, hro1, ht1, hp1, hc1⟩ :=
    runFeeOps_fields cls sid today ops fs st t p0 c0 hst ht hp hc
  obtain ⟨fs', heq, hro2, -⟩ :=
    collect_fee_step (runFeeOps cls sid today fs ops) cls sid today "Admin" ""
      aLast true true st1 t (p0 + collectSum ops) (finalConc c0 ops) hro1 ht1 hp1 hc1
  obtain ⟨ht2, hp2, hc2, hr2⟩ :=
    collectRecord_fields st1 t (p0 + collectSum ops) (finalConc c0 ops) aLast ht1 hc1
  have hrun : runFeeOps cls sid today fs (ops ++ [.collect aLast]) = fs' := by
    rw [runFeeOps, List.foldl_append]
    show (applyFeeOp cls sid today (List.foldl (applyFeeOp cls sid today) fs ops)
      (.collect aLast)) = fs'
    rw [applyFeeOp]
    show (collect_student_fee (runFeeOps cls sid today fs ops)
      ⟨cls, sid, aLast, false, "Admin", ""⟩ today true true).2 = fs'
    rw [heq]
  refine ⟨collectRecord st1 t (p0 + collectSum ops) (finalConc c0 ops) aLast,
    by rw [hrun]; exact hro2, ?_, ht2, ?_, ?_⟩
  · rw [hp2, collectSum_append_collect, Int.add_assoc]
  · rw [hc2, finalConc_append_collect]
  · rw [hr2, collectSum_append_collect, finalConc_append_collect, Int.add_assoc]

def fsC1 : FS :=
  [("class5.json", .json (.dict [("students", .dict [("s1", .dict
    [("totalfees", .int 1000), ("feespaid", .int 50), ("concession", .int 0),
     ("feesremaining", .int 950)])])]))]

def stC1 : PyDict :=
  [("totalfees", .int 1000), ("feespaid", .int 50), ("concession", .int 0),
   ("feesremaining", .int 950)]

theorem C1_collect_fee_sequence_witness :
    ∃ st', rosterStudent (runFeeOps "class5" "s1" "2026-01-05" fsC1
        ([.collect 100, .setConcession 30, .collect 200] ++ [.collect 50])) "class5" "s1"
        = some st' ∧
      getNum st' "feespaid" = some (50 + collectSum
        ([.collect 100, .setConcession 30, .collect 200] ++ [.collect 50])) ∧
      getNum st' "totalfees" = some 1000 ∧
      getNum st' "concession" = some (finalConc 0
        ([.collect 100, .setConcession 30, .collect 200] ++ [.collect 50])) ∧
      dlookup st' "feesremaining" = some (.int (1000 - finalConc 0
        ([.collect 100, .setConcession 30, .collect 200] ++ [.collect 50])
        - (50 + collectSum ([.collect 100, .setConcession 30, .collect 200]
          ++ [.collect 50])))) :=
  C1_collect_fee_sequence fsC1 "class5" "s1" "2026-01-05"
    [.collect 100, .setConcession 30, .collect 200] 50 stC1 1000 50 0
    rfl rfl rfl rfl

/-! ### Claim C8 -/

/-- C8: `update_concession(c)` sets `concession` to the absolute value `c`
    and recomputes `feesremaining`; a following `collect_fee(0)` leaves
    `feesremaining = totalfees - c - feespaid`.  The same fee numbers result
    in the opposite order: the invariant recomputation is idempotent and
    order-independent between the concession and feespaid fields. -/
theorem C8_concession_collect_zero (fs : FS) (cls sid today : String) (cNew : Int)
    (st : PyDict) (t p c0 : Int)
    (hst : rosterStudent fs cls sid = some st)
    (ht : getNum st "totalfees" = some t)
    (hp : getNum st "feespaid" = some p)
    (hc : getNum st "concession" = some c0) :
    (∃ st', rosterStudent ((collect_student_fee
          ((update_student_concession fs cls sid cNew).2)
          ⟨cls, sid, 0, false, "Admin", ""⟩ today true true).2) cls sid = some st' ∧
        getNum st' "feespaid" = some p ∧
        getNum st' "concession" = some cNew ∧
        dlookup st' "feesremaining" = some (.int (t - cNew - p))) ∧
    (∃ st'', rosterStudent ((update_student_concession
          ((collect_student_fee fs ⟨cls, sid, 0, false, "Admin", ""⟩ today true true).2)
          cls sid cNew).2) cls sid = some st'' ∧
        getNum st'' "feespaid" = some p ∧
        getNum st'' "concession" = some cNew ∧
        dlookup st'' "feesremaining" = some (.int (t - cNew - p))) := by
  constructor
  · obtain ⟨fs1, heq1, hro1, -⟩ := update_concession_step fs cls sid cNew st t p hst ht hp
    obtain ⟨ht1, hp1, hc1, -⟩ := concessionRecord_fields st t p cNew ht hp
    obtain ⟨fs2, heq2, hro2, -⟩ := collect_fee_step fs1 cls sid today "Admin" "" 0 true true
      (concessionRecord st t p cNew) t p cNew hro1 ht1 hp1 hc1
    obtain ⟨-, hp2, hc2, hr2⟩ :=
      collectRecord_fields (concessionRecord st t p cNew) t p cNew 0 ht1 hc1
    refine ⟨collectRecord (concessionRecord st t p cNew) t p cNew 0, ?_, ?_, hc2, ?_⟩
    · rw [heq1, heq2]
      exact hro2
    · simpa using hp2
    · simpa using hr2
  · obtain ⟨fs1, heq1, hro1, -⟩ :=
      collect_fee_step fs cls sid today "Admin" "" 0 true true st t p c0 hst ht hp hc
    obtain ⟨ht1, hp1, hc1, -⟩ := collectRecord_fields st t p c0 0 ht hc
    have hp1' : getNum (collectRecord st t p c0 0) "feespaid" = some p := by simpa using hp1
    obtain ⟨fs2, heq2, hro2, -⟩ := update_concession_step fs1 cls sid cNew
      (collectRecord st t p c0 0) t p hro1 ht1 hp1'
    obtain ⟨-, hp2, hc2, hr2⟩ :=
      concessionRecord_fields (collectRecord st t p c0 0) t p cNew ht1 hp1'
    refine ⟨concessionRecord (collectRecord st t p c0 0) t p cNew, ?_, hp2, hc2, hr2⟩
    rw [heq1, heq2]
    exact hro2

def fsC8 : FS :=
  [("class5.json", .json (.dict [("students", .dict [("s2", .dict
    [("totalfees", .int 800), ("feespaid", .int 300), ("concession", .int 10),
     ("feesremaining", .int 490)])])]))]

def stC8 : PyDict :=
  [("totalfees", .int 800), ("feespaid", .int 300), ("concession", .int 10),
   ("feesremaining", .int 490)]

theorem C8_concession_collect_zero_witness :
    (∃ st', rosterStudent ((collect_student_fee
          ((update_student_concession fsC8 "class5" "s2" 75).2)
          ⟨"class5", "s2", 0, false, "Admin", ""⟩ "2026-01-05" true true).2)
          "class5" "s2" = some st' ∧
        getNum st' "feespaid" = some 300 ∧
        getNum st' "concession" = some 75 ∧
        dlookup st' "feesremaining" = some (.int (800 - 75 - 300))) ∧
    (∃ st'', rosterStudent ((update_student_concession
          ((collect_student_fee fsC8 ⟨"class5", "s2", 0, false, "Admin", ""⟩
            "2026-01-05" true true).2) "class5" "s2" 75).2) "class5" "s2" = some st'' ∧
        getNum st'' "feespaid" = some 300 ∧
        getNum st'' "concession" = some 75 ∧
        dlookup st'' "feesremaining" = some (.int (800 - 75 - 300))) :=
  C8_concession_collect_zero fsC8 "class5" "s2" "2026-01-05" 75 stC8 800 300 10
    rfl rfl rfl rfl

/-! ### The invoice ledger (claims C3, C10) -/

/-- A well-formed ledger state: the ledger file is absent (the defaults make
    this behave as empty invoices and next number 1), or it holds a JSON
    dict whose `invoices` is a list and whose `next_invoice_number` is the
    integer `N`. -/
def LedgerOk (fs : FS) (invs : List PyVal) (N : Int) : Prop :=
  (flookup fs "invoice_records.json" = Option.none ∧ invs = [] ∧ N = 1) ∨
  (∃ d, flookup fs "invoice_records.json" = some (.json (.dict d)) ∧
    dlookup d "invoices" = some (.list invs) ∧
    dlookup d "next_invoice_number" = some (.int N))

theorem get_next_invoice_number_of_ok {fs : FS} {invs : List PyVal} {N : Int}
    (h : LedgerOk fs invs N) : get_next_invoice_number fs = .int N := by
  rcases h with ⟨h1, -, h3⟩ | ⟨d, h1, -, h3⟩
  · subst h3
    rw [get_next_invoice_number, h1]
  · simp only [get_next_invoice_number, h1, h3, Option.getD_some]

theorem save_invoice_record_of_ok {fs : FS} {invs : List PyVal} {N : Int}
    (invoice : PyVal) (h : LedgerOk fs invs N) :
    ∃ fs', save_invoice_record fs invoice true = .ok fs' ∧
      LedgerOk fs' (invs ++ [invoice]) (N + 1) ∧
      ∀ q, q ≠ "invoice_records.json" → flookup fs' q = flookup fs q := by
  rcases h with ⟨h1, h2, h3⟩ | ⟨d, h1, h2, h3⟩
  · subst h2; subst h3
    refine ⟨fwrite fs "invoice_records.json" (.json (.dict
        [("invoices", .list [invoice]), ("next_invoice_number", .int 2)])), ?_, ?_, ?_⟩
    · simp only [save_invoice_record, h1]
      rfl
    · right
      exact ⟨_, flookup_fwrite_self _ _ _, rfl, rfl⟩
    · intro q hq
      exact flookup_fwrite_ne _ _ _ _ hq
  · have hnext : dlookup (dinsert d "invoices" (.list (invs ++ [invoice])))
        "next_invoice_number" = some (.int N) := by
      rw [dlookup_dinsert_ne _ _ _ _ (by decide)]
      exact h3
    refine ⟨fwrite fs "invoice_records.json" (.json (.dict
        (dinsert (dinsert d "invoices" (.list (invs ++ [invoice])))
          "next_invoice_number" (.int (N + 1))))), ?_, ?_, ?_⟩
    · simp only [save_invoice_record, h1, h2, hnext]
      rfl
    · right
      refine ⟨_, flookup_fwrite_self _ _ _, ?_, ?_⟩
      · rw [dlookup_dinsert_ne _ _ _ _ (by decide), dlookup_dinsert_self]
      · rw [dlookup_dinsert_self]
    · intro q hq
      exact flookup_fwrite_ne _ _ _ _ hq

/-- One `collect_fee` call with `generate_invoice = True` when receipt
    rendering and the ledger write succeed: the roster is updated, the
    issued invoice number is the ledger's current `next_invoice_number`,
    and the ledger advances by exactly one. -/
theorem collect_invoice_step (fs : FS) (cls sid today cb note : String) (a : Int)
    (st : PyDict) (t p c : Int) (invs : List PyVal) (N : Int)
    (hkey : normalize_class_name cls ++ ".json" ≠ "invoice_records.json")
    (hst : rosterStudent fs cls sid = some st)
    (ht : getNum st "totalfees" = some t)
    (hp : getNum st "feespaid" = some p)
    (hc : getNum st "concession" = some c)
    (hled : LedgerOk fs invs N) :
    ∃ fs', collect_student_fee fs ⟨cls, sid, a, true, cb, note⟩ today true true =
        (.ok ⟨p + a, t - c - (p + a), some N⟩, fs') ∧
      rosterStudent fs' cls sid = some (collectRecord st t p c a) ∧
      LedgerOk fs' (invs ++ [mkInvoice ⟨cls, sid, a, true, cb, note⟩
        (normalize_class_name cls) today N]) (N + 1) ∧
      getNum (collectRecord st t p c a) "feespaid" = some (p + a) := by
  obtain ⟨v, students, hf, hsd, hsl⟩ := rosterStudent_inv hst
  have h1 : getNum (dinsert st "feespaid" (.int (p + a))) "totalfees" = some t := by
    rw [getNum_dinsert_ne _ _ _ _ (by decide)]; exact ht
  have h2 : getNum (dinsert st "feespaid" (.int (p + a))) "concession" = some c := by
    rw [getNum_dinsert_ne _ _ _ _ (by decide)]; exact hc
  have hled1 : LedgerOk (fwrite fs (normalize_class_name cls ++ ".json")
      (.json (.dict (dinsert (ensure_students_key v) "students"
        (.dict (dinsert students sid (.dict (dinsert (dinsert st "feespaid"
          (.int (p + a))) "feesremaining" (.int (t - c - (p + a))))))))))) invs N := by
    rcases hled with ⟨hA, hB, hC⟩ | ⟨d, hA, hB, hC⟩
    · exact Or.inl ⟨by rw [flookup_fwrite_ne _ _ _ _ (Ne.symm hkey)]; exact hA, hB, hC⟩
    · exact Or.inr ⟨d, by rw [flookup_fwrite_ne _ _ _ _ (Ne.symm hkey)]; exact hA, hB, hC⟩
  have hg : pyNum (get_next_invoice_number (fwrite fs (normalize_class_name cls ++ ".json")
      (.json (.dict (dinsert (ensure_students_key v) "students"
        (.dict (dinsert students sid (.dict (dinsert (dinsert st "feespaid"
          (.int (p + a))) "feesremaining" (.int (t - c - (p + a)))))))))))) = some N := by
    rw [get_next_invoice_number_of_ok hled1]
    rfl
  obtain ⟨fs2, hsave, hled2, hpres2⟩ := save_invoice_record_of_ok
    (mkInvoice ⟨cls, sid, a, true, cb, note⟩ (normalize_class_name cls) today N) hled1
  refine ⟨fs2, ?_, ?_, hled2, ?_⟩
  · simp only [collect_student_fee, hf, hsd, hsl, hp, h1, h2, hg, hsave]
    simp
  · have hafter := rosterStudent_after_write fs cls sid (ensure_students_key v)
      students (collectRecord st t p c a)
    unfold rosterStudent at hafter ⊢
    rw [hpres2 _ hkey]
    rw [collectRecord] at hafter
    exact hafter
  · obtain ⟨-, hpx, -, -⟩ := collectRecord_fields st t p c a ht hc
    exact hpx

/-- A sequential (non-concurrent) run of invoice-generating `collect_fee`
    calls, one per amount, collecting the responses. -/
def runInvoices (cls sid today : String) (fs : FS) :
    List Int → List (Except Err CollectOk) × FS
  | [] => ([], fs)
  | a :: rest =>
    let r := collect_student_fee fs ⟨cls, sid, a, true, "Admin", ""⟩ today true true
    let next := runInvoices cls sid today r.2 rest
    (r.1 :: next.1, next.2)

/-- The invoice number carried by each response. -/
def invoiceNums (rs : List (Except Err CollectOk)) : List (Option Int) :=
  rs.map (fun r => match r with | .ok x => x.invoice_number | .error _ => Option.none)

/-- `n` consecutive numbers starting at `N`. -/
def consecutiveFrom (N : Int) : Nat → List (Option Int)
  | 0 => []
  | n + 1 => some N :: consecutiveFrom (N + 1) n

theorem consecutiveFrom_eq (n : Nat) : ∀ N : Int,
    consecutiveFrom N n = (List.range n).map (fun (k : Nat) => some (N + (k : Int))) := by
  induction n with
  | zero => intro N; simp [consecutiveFrom]
  | succ m ih =>
    intro N
    rw [consecutiveFrom, ih (N + 1), List.range_succ_eq_map, List.map_cons, List.map_map]
    refine congrArg₂ List.cons (by simp) (List.map_congr_left ?_)
    intro k hk
    simp only [Function.comp_apply]
    congr 1
    push_cast
    ring

theorem runInvoices_spec (cls sid today : String) (amounts : List Int)
    (hkey : normalize_class_name cls ++ ".json" ≠ "invoice_records.json") :
    ∀ (fs : FS) (st : PyDict) (t p c : Int) (invs : List PyVal) (N : Int),
    rosterStudent fs cls sid = some st →
    getNum st "totalfees" = some t →
    getNum st "feespaid" = some p →
    getNum st "concession" = some c →
    LedgerOk fs invs N →
    invoiceNums (runInvoices cls sid today fs amounts).1 =
      consecutiveFrom N amounts.length ∧
    ∃ invs', LedgerOk (runInvoices cls sid today fs amounts).2 invs'
      (N + amounts.length) := by
  induction amounts with
  | nil =>
    intro fs st t p c invs N h1 h2 h3 h4 h5
    exact ⟨by simp [runInvoices, invoiceNums, consecutiveFrom],
      ⟨invs, by simpa [runInvoices] using h5⟩⟩
  | cons a rest ih =>
    intro fs st t p c invs N h1 h2 h3 h4 h5
    obtain ⟨fs', heq, hro, hled', -⟩ :=
      collect_invoice_step fs cls sid today "Admin" "" a st t p c invs N hkey
        h1 h2 h3 h4 h5
    obtain ⟨ht', hp', hc', -⟩ := collectRecord_fields st t p c a h2 h4
    obtain ⟨htail, invs', hledfin⟩ :=
      ih fs' (collectRecord st t p c a) t (p + a) c _ (N + 1) hro ht' hp' hc' hled'
    constructor
    · rw [runInvoices]
      simp only [heq, invoiceNums, List.map_cons]
      rw [invoiceNums] at htail
      rw [htail, List.length_cons, consecutiveFrom]
    · refine ⟨invs', ?_⟩
      rw [runInvoices]
      simp only [heq]
      have harith : N + ((a :: rest).length : Int) = (N + 1) + rest.length := by
        rw [List.length_cons]
        push_cast
        ring
      rw [harith]
      exact hledfin

/-! ### Claim C3 -/

/-- C3: the invoice numbers issued by a sequential run of
    `collect_fee(generate_invoice=True)` calls are the consecutive integers
    starting at the ledger's `next_invoice_number` (strictly increasing, no
    gaps), and after the run the ledger's `next_invoice_number` has advanced
    by exactly one per saved invoice. -/
theorem C3_invoice_numbers_consecutive (fs : FS) (cls sid today : String)
    (amounts : List Int) (st : PyDict) (t p c : Int) (invs : List PyVal) (N : Int)
    (hkey : normalize_class_name cls ++ ".json" ≠ "invoice_records.json")
    (hst : rosterStudent fs cls sid = some st)
    (ht : getNum st "totalfees" = some t)
    (hp : getNum st "feespaid" = some p)
    (hc : getNum st "concession" = some c)
    (hled : LedgerOk fs invs N) :
    invoiceNums (runInvoices cls sid today fs amounts).1 =
      (List.range amounts.length).map (fun (k : Nat) => some (N + (k : Int))) ∧
    ∃ invs', LedgerOk (runInvoices cls sid today fs amounts).2 invs'
      (N + amounts.length) := by
  obtain ⟨h1, h2⟩ := runInvoices_spec cls sid today amounts hkey fs st t p c invs N
    hst ht hp hc hled
  exact ⟨by rw [h1, consecutiveFrom_eq], h2⟩

def fsC3 : FS :=
  [("class5.json", .json (.dict [("students", .dict [("s3", .dict
    [("totalfees", .int 500), ("feespaid", .int 0), ("concession", .int 0),
     ("feesremaining", .int 500)])])]))]

def stC3 : PyDict :=
  [("totalfees", .int 500), ("feespaid", .int 0), ("concession", .int 0),
   ("feesremaining", .int 500)]

theorem C3_invoice_numbers_consecutive_witness :
    invoiceNums (runInvoices "class5" "s3" "2026-01-05" fsC3 [100, 50, 25]).1 =
      (List.range ([100, 50, 25] : List Int).length).map
        (fun (k : Nat) => some ((1 : Int) + (k : Int))) ∧
    ∃ invs', LedgerOk (runInvoices "class5" "s3" "2026-01-05" fsC3 [100, 50, 25]).2
      invs' (1 + ([100, 50, 25] : List Int).length) :=
  C3_invoice_numbers_consecutive fsC3 "class5" "s3" "2026-01-05" [100, 50, 25] stC3
    500 0 0 [] 1 (by decide) rfl rfl rfl rfl (Or.inl ⟨rfl, rfl, rfl⟩)

/-- A failing ledger upload (`STOR` raises) aborts `save_invoice_record`
    without changing any file. -/
theorem save_invoice_record_write_fails {fs : FS} {invs : List PyVal} {N : Int}
    (invoice : PyVal) (h : LedgerOk fs invs N) :
    save_invoice_record fs invoice false = .error .storeError := by
  rcases h with ⟨h1, h2, h3⟩ | ⟨d, h1, h2, h3⟩
  · rw [save_invoice_record, h1]
    rfl
  · have hnext : dlookup (dinsert d "invoices" (.list (invs ++ [invoice])))
        "next_invoice_number" = some (.int N) := by
      rw [dlookup_dinsert_ne _ _ _ _ (by decide)]
      exact h3
    simp only [save_invoice_record, h1, h2, hnext]
    rfl

/-! ### Claim C10 -/

/-- C10: with `generate_invoice=True` the roster document is written before
    the invoice phase begins; if receipt rendering or the ledger upload
    fails afterwards, the fee payment stays persisted in the roster, no
    invoice is recorded (the ledger file is untouched), and the caller
    receives an error response. -/
theorem C10_roster_written_before_invoice_phase (fs : FS)
    (cls sid today cb note : String) (a : Int) (st : PyDict) (t p c : Int)
    (invs : List PyVal) (N : Int)
    (hkey : normalize_class_name cls ++ ".json" ≠ "invoice_records.json")
    (hst : rosterStudent fs cls sid = some st)
    (ht : getNum st "totalfees" = some t)
    (hp : getNum st "feespaid" = some p)
    (hc : getNum st "concession" = some c)
    (hled : LedgerOk fs invs N) :
    (∃ fs', collect_student_fee fs ⟨cls, sid, a, true, cb, note⟩ today false true =
        (.error .pdfError, fs') ∧
      rosterStudent fs' cls sid = some (collectRecord st t p c a) ∧
      getNum (collectRecord st t p c a) "feespaid" = some (p + a) ∧
      flookup fs' "invoice_records.json" = flookup fs "invoice_records.json") ∧
    (∃ fs', collect_student_fee fs ⟨cls, sid, a, true, cb, note⟩ today true false =
        (.error .storeError, fs') ∧
      rosterStudent fs' cls sid = some (collectRecord st t p c a) ∧
      flookup fs' "invoice_records.json" = flookup fs "invoice_records.json") := by
  obtain ⟨v, students, hf, hsd, hsl⟩ := rosterStudent_inv hst
  have h1 : getNum (dinsert st "feespaid" (.int (p + a))) "totalfees" = some t := by
    rw [getNum_dinsert_ne _ _ _ _ (by decide)]; exact ht
  have h2 : getNum (dinsert st "feespaid" (.int (p + a))) "concession" = some c := by
    rw [getNum_dinsert_ne _ _ _ _ (by decide)]; exact hc
  have hled1 : LedgerOk (fwrite fs (normalize_class_name cls ++ ".json")
      (.json (.dict (dinsert (ensure_students_key v) "students"
        (.dict (dinsert students sid (.dict (dinsert (dinsert st "feespaid"
          (.int (p + a))) "feesremaining" (.int (t - c - (p + a))))))))))) invs N := by
    rcases hled with ⟨hA, hB, hC⟩ | ⟨d, hA, hB, hC⟩
    · exact Or.inl ⟨by rw [flookup_fwrite_ne _ _ _ _ (Ne.symm hkey)]; exact hA, hB, hC⟩
    · exact Or.inr ⟨d, by rw [flookup_fwrite_ne _ _ _ _ (Ne.symm hkey)]; exact hA, hB, hC⟩
  have hg : pyNum (get_next_invoice_number (fwrite fs (normalize_class_name cls ++ ".json")
      (.json (.dict (dinsert (ensure_students_key v) "students"
        (.dict (dinsert students sid (.dict (dinsert (dinsert st "feespaid"
          (.int (p + a))) "feesremaining" (.int (t - c - (p + a)))))))))))) = some N := by
    rw [get_next_invoice_number_of_ok hled1]
    rfl
  have hafter := rosterStudent_after_write fs cls sid (ensure_students_key v)
    students (collectRecord st t p c a)
  have hledpre : flookup (fwrite fs (normalize_class_name cls ++ ".json")
      (.json (.dict (dinsert (ensure_students_key v) "students"
        (.dict (dinsert students sid (.dict (dinsert (dinsert st "feespaid"
          (.int (p + a))) "feesremaining" (.int (t - c - (p + a)))))))))))
      "invoice_records.json" = flookup fs "invoice_records.json" :=
    flookup_fwrite_ne _ _ _ _ (Ne.symm hkey)
  constructor
  · refine ⟨fwrite fs (normalize_class_name cls ++ ".json")
        (.json (.dict (dinsert (ensure_students_key v) "students"
          (.dict (dinsert students sid (.dict (dinsert (dinsert st "feespaid"
            (.int (p + a))) "feesremaining" (.int (t - c - (p + a)))))))))),
      ?_, ?_, ?_, hledpre⟩
    · simp only [collect_student_fee, hf, hsd, hsl, hp, h1, h2, hg]
      simp
    · rw [collectRecord] at hafter
      exact hafter
    · obtain ⟨-, hpx, -, -⟩ := collectRecord_fields st t p c a ht hc
      exact hpx
  · have hsave := save_invoice_record_write_fails
      (mkInvoice ⟨cls, sid, a, true, cb, note⟩ (normalize_class_name cls) today N) hled1
    refine ⟨fwrite fs (normalize_class_name cls ++ ".json")
        (.json (.dict (dinsert (ensure_students_key v) "students"
          (.dict (dinsert students sid (.dict (dinsert (dinsert st "feespaid"
            (.int (p + a))) "feesremaining" (.int (t - c - (p + a)))))))))),
      ?_, ?_, hledpre⟩
    · simp only [collect_student_fee, hf, hsd, hsl, hp, h1, h2, hg, hsave]
      simp
    · rw [collectRecord] at hafter
      exact hafter

def fsC10 : FS :=
  [("class5.json", .json (.dict [("students", .dict [("s4", .dict
    [("totalfees", .int 600), ("feespaid", .int 100), ("concession", .int 20),
     ("feesremaining", .int 480)])])])),
   ("invoice_records.json", .json (.dict [("invoices", .list []),
     ("next_invoice_number", .int 7)]))]

def stC10 : PyDict :=
  [("totalfees", .int 600), ("feespaid", .int 100), ("concession", .int 20),
   ("feesremaining", .int 480)]

theorem C10_roster_written_before_invoice_phase_witness :
    (∃ fs', collect_student_fee fsC10 ⟨"class5", "s4", 40, true, "Admin", ""⟩
        "2026-01-05" false true = (.error .pdfError, fs') ∧
      rosterStudent fs' "class5" "s4" = some (collectRecord stC10 600 100 20 40) ∧
      getNum (collectRecord stC10 600 100 20 40) "feespaid" = some (100 + 40) ∧
      flookup fs' "invoice_records.json" = flookup fsC10 "invoice_records.json") ∧
    (∃ fs', collect_student_fee fsC10 ⟨"class5", "s4", 40, true, "Admin", ""⟩
        "2026-01-05" true false = (.error .storeError, fs') ∧
      rosterStudent fs' "class5" "s4" = some (collectRecord stC10 600 100 20 40) ∧
      flookup fs' "invoice_records.json" = flookup fsC10 "invoice_records.json") :=
  C10_roster_written_before_invoice_phase fsC10 "class5" "s4" "2026-01-05" "Admin" ""
    40 stC10 600 100 20 [] 7 (by decide) rfl rfl rfl rfl
    (Or.inr ⟨[("invoices", .list []), ("next_invoice_number", .int 7)], rfl, rfl, rfl⟩)

/-! ### Claim C4 -/

/-- C4: `add_student` fails with a Duplicate error and leaves the store
    unchanged when the student id is already in the roster; otherwise it
    inserts a record with `totalfees` from the fee-structure lookup
    (`.int 0` when `fees.json` is absent or the class has no entry),
    `feespaid = 0`, and `feesremaining` equal to `totalfees`. -/
theorem C4_add_student (fs : FS) (r : AddStudentRequest) (students : PyDict)
    (hs : studentsDict (readRosterForAdd fs (normalize_class_name r.class_name))
      = some students) :
    (dmem students r.student_id = true →
      add_student fs r = (.error .duplicate, fs)) ∧
    (dmem students r.student_id = false →
      ∃ fs', add_student fs r =
          (.ok (.dict (newStudentRecord r (normalize_class_name r.class_name)
            (get_class_total_fees fs (normalize_class_name r.class_name)))), fs') ∧
        rosterStudent fs' r.class_name r.student_id =
          some (newStudentRecord r (normalize_class_name r.class_name)
            (get_class_total_fees fs (normalize_class_name r.class_name))) ∧
        dlookup (newStudentRecord r (normalize_class_name r.class_name)
            (get_class_total_fees fs (normalize_class_name r.class_name))) "totalfees" =
          some (get_class_total_fees fs (normalize_class_name r.class_name)) ∧
        dlookup (newStudentRecord r (normalize_class_name r.class_name)
            (get_class_total_fees fs (normalize_class_name r.class_name))) "feespaid" =
          some (.int 0) ∧
        dlookup (newStudentRecord r (normalize_class_name r.class_name)
            (get_class_total_fees fs (normalize_class_name r.class_name))) "feesremaining" =
          some (get_class_total_fees fs (normalize_class_name r.class_name))) ∧
    (flookup fs "fees.json" = Option.none →
      get_class_total_fees fs (normalize_class_name r.class_name) = .int 0) ∧
    (∀ d cf entry x, flookup fs "fees.json" = some (.json (.dict d)) →
      dlookup d "class_fees" = some (.dict cf) →
      dlookup cf (normalize_class_name (normalize_class_name r.class_name))
        = some (.dict entry) →
      dlookup entry "total_fees" = some x →
      get_class_total_fees fs (normalize_class_name r.class_name) = x) ∧
    (∀ d cf, flookup fs "fees.json" = some (.json (.dict d)) →
      dlookup d "class_fees" = some (.dict cf) →
      dlookup cf (normalize_class_name (normalize_class_name r.class_name))
        = Option.none →
      get_class_total_fees fs (normalize_class_name r.class_name) = .int 0) := by
  refine ⟨?_, ?_, ?_, ?_, ?_⟩
  · intro hdup
    simp only [add_student, hs, hdup]
    rfl
  · intro hfresh
    refine ⟨fwrite fs (normalize_class_name r.class_name ++ ".json")
        (.json (.dict (dinsert (readRosterForAdd fs (normalize_class_name r.class_name))
          "students" (.dict (dinsert students r.student_id
            (.dict (newStudentRecord r (normalize_class_name r.class_name)
              (get_class_total_fees fs (normalize_class_name r.class_name))))))))),
      ?_, ?_, rfl, rfl, rfl⟩
    · simp only [add_student, hs, hfresh]
      rfl
    · exact rosterStudent_after_write fs r.class_name r.student_id
        (readRosterForAdd fs (normalize_class_name r.class_name)) students _
  · intro habs
    simp only [get_class_total_fees, habs]
  · intro d cf entry x hd hcf hentry hx
    simp only [get_class_total_fees, hd, hcf, hentry, hx, Option.getD_some]
  · intro d cf hd hcf hentry
    simp only [get_class_total_fees, hd, hcf, hentry]

def fsC4 : FS :=
  [("class5.json", .json (.dict [("students", .dict [("olds", .dict [])])])),
   ("fees.json", .json (.dict [("class_fees", .dict [("class5", .dict
     [("total_fees", .int 1200)])])]))]

def rC4 : AddStudentRequest :=
  ⟨"class5", "news", "17", "A", "F Name", "123", "e@x", "addr", "2015-01-01",
   "9999", "F"⟩

def rC4dup : AddStudentRequest :=
  ⟨"class5", "olds", "17", "A", "F Name", "123", "e@x", "addr", "2015-01-01",
   "9999", "F"⟩

theorem C4_add_student_witness :
    add_student fsC4 rC4dup = (.error .duplicate, fsC4) ∧
    (∃ fs', add_student fsC4 rC4 =
        (.ok (.dict (newStudentRecord rC4 (normalize_class_name rC4.class_name)
          (get_class_total_fees fsC4 (normalize_class_name rC4.class_name)))), fs') ∧
      rosterStudent fs' rC4.class_name rC4.student_id =
        some (newStudentRecord rC4 (normalize_class_name rC4.class_name)
          (get_class_total_fees fsC4 (normalize_class_name rC4.class_name))) ∧
      dlookup (newStudentRecord rC4 (normalize_class_name rC4.class_name)
          (get_class_total_fees fsC4 (normalize_class_name rC4.class_name))) "totalfees" =
        some (get_class_total_fees fsC4 (normalize_class_name rC4.class_name)) ∧
      dlookup (newStudentRecord rC4 (normalize_class_name rC4.class_name)
          (get_class_total_fees fsC4 (normalize_class_name rC4.class_name))) "feespaid" =
        some (.int 0) ∧
      dlookup (newStudentRecord rC4 (normalize_class_name rC4.class_name)
          (get_class_total_fees fsC4 (normalize_class_name rC4.class_name)))
          "feesremaining" =
        some (get_class_total_fees fsC4 (normalize_class_name rC4.class_name))) ∧
    get_class_total_fees fsC4 (normalize_class_name rC4.class_name) = .int 1200 :=
  ⟨(C4_add_student fsC4 rC4dup [("olds", .dict [])] rfl).1 rfl,
   (C4_add_student fsC4 rC4 [("olds", .dict [])] rfl).2.1 rfl,
   (C4_add_student fsC4 rC4 [("olds", .dict [])] rfl).2.2.2.1
     [("class_fees", .dict [("class5", .dict [("total_fees", .int 1200)])])]
     [("class5", .dict [("total_fees", .int 1200)])]
     [("total_fees", .int 1200)] (.int 1200) rfl rfl rfl rfl⟩

/-! ### Claim C5 -/

/-- C5: on an existing student, `update_student` merges the update mapping
    into the stored record, and recomputes `feesremaining` as
    `totalfees - concession - feespaid` after the merge exactly when one of
    `totalfees`, `feespaid`, `concession` is among the updated keys; an
    absent student id yields NotFound (and no write). -/
theorem C5_update_student (fs : FS) (cls sid : String) (updates : PyDict)
    (v : PyVal) (students : PyDict)
    (hf : flookup fs (normalize_class_name cls ++ ".json") = some (.json v))
    (hs : studentsDict (ensure_students_key v) = some students) :
    (dlookup students sid = Option.none →
      update_student fs cls sid updates = (.error .notFound, fs)) ∧
    (∀ st, dlookup students sid = some (.dict st) →
      (feeFieldTouched updates = false →
        ∃ fs', update_student fs cls sid updates = (.ok (), fs') ∧
          rosterStudent fs' cls sid = some (dupdate st updates)) ∧
      (feeFieldTouched updates = true →
        ∀ t c p, getNum (dupdate st updates) "totalfees" = some t →
          getNum (dupdate st updates) "concession" = some c →
          getNum (dupdate st updates) "feespaid" = some p →
          ∃ fs', update_student fs cls sid updates = (.ok (), fs') ∧
            rosterStudent fs' cls sid =
              some (dinsert (dupdate st updates) "feesremaining" (.int (t - c - p))))) := by
  constructor
  · intro habs
    simp only [update_student, hf, hs, habs]
  · intro st hst
    constructor
    · intro htouch
      refine ⟨fwrite fs (normalize_class_name cls ++ ".json")
          (.json (.dict (dinsert (ensure_students_key v) "students"
            (.dict (dinsert students sid (.dict (dupdate st updates))))))), ?_, ?_⟩
      · simp only [update_student, hf, hs, hst, htouch]
        rfl
      · exact rosterStudent_after_write fs cls sid (ensure_students_key v) students _
    · intro htouch t c p ht hc hp
      refine ⟨fwrite fs (normalize_class_name cls ++ ".json")
          (.json (.dict (dinsert (ensure_students_key v) "students"
            (.dict (dinsert students sid (.dict (dinsert (dupdate st updates)
              "feesremaining" (.int (t - c - p))))))))), ?_, ?_⟩
      · simp only [update_student, hf, hs, hst, htouch, ht, hc, hp]
        rfl
      · exact rosterStudent_after_write fs cls sid (ensure_students_key v) students _

def fsC5 : FS :=
  [("class5.json", .json (.dict [("students", .dict [("s5", .dict
    [("father", .str "A"), ("totalfees", .int 400), ("feespaid", .int 100),
     ("concession", .int 0), ("feesremaining", .int 300)])])]))]

def stC5 : PyDict :=
  [("father", .str "A"), ("totalfees", .int 400), ("feespaid", .int 100),
   ("concession", .int 0), ("feesremaining", .int 300)]

theorem C5_update_student_witness :
    update_student fsC5 "class5" "ghost" [("father", .str "B")]
      = (.error .notFound, fsC5) ∧
    (∃ fs', update_student fsC5 "class5" "s5" [("father", .str "B")] = (.ok (), fs') ∧
      rosterStudent fs' "class5" "s5" = some (dupdate stC5 [("father", .str "B")])) ∧
    (∃ fs', update_student fsC5 "class5" "s5" [("concession", .int 50)] = (.ok (), fs') ∧
      rosterStudent fs' "class5" "s5" =
        some (dinsert (dupdate stC5 [("concession", .int 50)]) "feesremaining"
          (.int (400 - 50 - 100)))) :=
  ⟨(C5_update_student fsC5 "class5" "ghost" [("father", .str "B")] _ _ rfl rfl).1 rfl,
   ((C5_update_student fsC5 "class5" "s5" [("father", .str "B")] _ _ rfl rfl).2
     stC5 rfl).1 rfl,
   ((C5_update_student fsC5 "class5" "s5" [("concession", .int 50)] _ _ rfl rfl).2
     stC5 rfl).2 rfl 400 50 100 rfl rfl rfl⟩

/-! ### Claim C6 -/

/-- C6: creating a class whose roster file is absent writes an empty roster
    (an immediate store read returns the empty dict), and a second create on
    the same identifier fails with Conflict leaving the store unchanged. -/
theorem C6_create_class (fs : FS) (name : String)
    (hne : ¬ normalize_class_name name = "")
    (habs : flookup fs (normalize_class_name name ++ ".json") = Option.none) :
    ∃ fs', create_class fs name = (.ok (normalize_class_name name), fs') ∧
      ftp_read fs' (normalize_class_name name ++ ".json") = .ok (.dict []) ∧
      create_class fs' name = (.error .conflict, fs') := by
  have hmem : fmem fs (normalize_class_name name ++ ".json") = false := by
    rw [fmem, habs]
    rfl
  refine ⟨fwrite fs (normalize_class_name name ++ ".json") (.json (.dict [])),
    ?_, ?_, ?_⟩
  · simp only [create_class, hne, hmem]
    rfl
  · rw [ftp_read, flookup_fwrite_self]
  · have hmem' : fmem (fwrite fs (normalize_class_name name ++ ".json")
        (.json (.dict []))) (normalize_class_name name ++ ".json") = true := by
      rw [fmem, flookup_fwrite_self]
      rfl
    simp only [create_class, hne, hmem']
    rfl

theorem C6_create_class_witness :
    ∃ fs', create_class ([] : FS) "Class6" = (.ok (normalize_class_name "Class6"), fs') ∧
      ftp_read fs' (normalize_class_name "Class6" ++ ".json") = .ok (.dict []) ∧
      create_class fs' "Class6" = (.error .conflict, fs') :=
  C6_create_class [] "Class6" (by decide) rfl

/-! ### Claim C7 -/

/-- C7: every mutator leaves the remote documents unchanged on any failure
    that occurs before its final write: a Duplicate outcome of `add_student`,
    a missing or undecodable roster file, and NotFound outcomes of
    `update_student`, `collect_fee`, `update_concession` and
    `delete_fee_structure`, as well as a malformed `fees.json` in
    `set_fee_structure`, all return the input store untouched.  (For
    `collect_fee` with an invoice, each document is unchanged by failures
    before that document's own write; the roster/ledger split is claim
    C10.) -/
theorem C7_no_write_on_failure (fs : FS) (cls sid today : String)
    (updates : PyDict) (r : AddStudentRequest) (cf : CollectFeeRequest)
    (pdf_ok ledger_ok : Bool) (conc tf lf mf : Int) :
    (∀ students, studentsDict (readRosterForAdd fs (normalize_class_name r.class_name))
        = some students → dmem students r.student_id = true →
      add_student fs r = (.error .duplicate, fs)) ∧
    (flookup fs (normalize_class_name cls ++ ".json") = Option.none →
      update_student fs cls sid updates = (.error .storeError, fs)) ∧
    (flookup fs (normalize_class_name cls ++ ".json") = some .invalid →
      update_student fs cls sid updates = (.error .decodeError, fs)) ∧
    (∀ v students, flookup fs (normalize_class_name cls ++ ".json") = some (.json v) →
      studentsDict (ensure_students_key v) = some students →
      dlookup students sid = Option.none →
      update_student fs cls sid updates = (.error .notFound, fs)) ∧
    (flookup fs (normalize_class_name cf.class_name ++ ".json") = Option.none →
      collect_student_fee fs cf today pdf_ok ledger_ok = (.error .storeError, fs)) ∧
    (flookup fs (normalize_class_name cf.class_name ++ ".json") = some .invalid →
      collect_student_fee fs cf today pdf_ok ledger_ok = (.error .decodeError, fs)) ∧
    (∀ v students, flookup fs (normalize_class_name cf.class_name ++ ".json")
        = some (.json v) →
      studentsDict (ensure_students_key v) = some students →
      dlookup students cf.student_id = Option.none →
      collect_student_fee fs cf today pdf_ok ledger_ok = (.error .notFound, fs)) ∧
    (flookup fs (normalize_class_name cls ++ ".json") = Option.none →
      update_student_concession fs cls sid conc = (.error .storeError, fs)) ∧
    (∀ v students, flookup fs (normalize_class_name cls ++ ".json") = some (.json v) →
      studentsDict (ensure_students_key v) = some students →
      dlookup students sid = Option.none →
      update_student_concession fs cls sid conc = (.error .notFound, fs)) ∧
    (∀ d, flookup fs "fees.json" = some (.json (.dict d)) →
      dlookup d "class_fees" = Option.none →
      set_fee_structure fs cls tf lf mf = (.error .typeError, fs)) ∧
    (flookup fs "fees.json" = Option.none →
      delete_fee_structure fs cls = (.error .notFound, fs)) ∧
    (∀ d cfees, flookup fs "fees.json" = some (.json (.dict d)) →
      dlookup d "class_fees" = some (.dict cfees) →
      dmem cfees (normalize_class_name cls) = false →
      delete_fee_structure fs cls = (.error .notFound, fs)) := by
  refine ⟨?_, ?_, ?_, ?_, ?_, ?_, ?_, ?_, ?_, ?_, ?_, ?_⟩
  · intro students hs hdup
    simp only [add_student, hs, hdup]
    rfl
  · intro h
    simp only [update_student, h]
  · intro h
    simp only [update_student, h]
  · intro v students hf hs habs
    simp only [update_student, hf, hs, habs]
  · intro h
    simp only [collect_student_fee, h]
  · intro h
    simp only [collect_student_fee, h]
  · intro v students hf hs habs
    simp only [collect_student_fee, hf, hs, habs]
  · intro h
    simp only [update_student_concession, h]
  · intro v students hf hs habs
    simp only [update_student_concession, hf, hs, habs]
  · intro d hd hcf
    simp only [set_fee_structure, hd, hcf]
  · intro h
    simp only [delete_fee_structure, h]
  · intro d cfees hd hcf habs
    simp only [delete_fee_structure, hd, hcf, Option.getD_some, habs]
    rfl

def fsC7 : FS :=
  [("class5.json", .json (.dict [("students", .dict [("olds", .dict
     [("totalfees", .int 100), ("feespaid", .int 0), ("concession", .int 0),
      ("feesremaining", .int 100)])])])),
   ("badjson.json", .invalid),
   ("fees.json", .json (.dict [("class_fees", .dict [("class5", .dict
     [("total_fees", .int 100)])])]))]

def rC7dup : AddStudentRequest :=
  ⟨"class5", "olds", "1", "A", "F", "1", "e", "a", "2015-01-01", "9", "M"⟩

theorem C7_no_write_on_failure_witness :
    add_student fsC7 rC7dup = (.error .duplicate, fsC7) ∧
    update_student fsC7 "nosuch" "s" [] = (.error .storeError, fsC7) ∧
    update_student fsC7 "badjson" "s" [] = (.error .decodeError, fsC7) ∧
    update_student fsC7 "class5" "ghost" [] = (.error .notFound, fsC7) ∧
    collect_student_fee fsC7 ⟨"class5", "ghost", 10, false, "Admin", ""⟩ "2026-01-05"
      true true = (.error .notFound, fsC7) ∧
    update_student_concession fsC7 "class5" "ghost" 5 = (.error .notFound, fsC7) ∧
    delete_fee_structure fsC7 "class9" = (.error .notFound, fsC7) := by
  refine ⟨?_, ?_, ?_, ?_, ?_, ?_, ?_⟩
  · exact (C7_no_write_on_failure fsC7 "class5" "s" "2026-01-05" []
      rC7dup ⟨"class5", "ghost", 10, false, "Admin", ""⟩ true true 5 0 0 0).1
      _ rfl rfl
  · exact (C7_no_write_on_failure fsC7 "nosuch" "s" "2026-01-05" []
      rC7dup ⟨"class5", "ghost", 10, false, "Admin", ""⟩ true true 5 0 0 0).2.1 rfl
  · exact (C7_no_write_on_failure fsC7 "badjson" "s" "2026-01-05" []
      rC7dup ⟨"class5", "ghost", 10, false, "Admin", ""⟩ true true 5 0 0 0).2.2.1 rfl
  · exact (C7_no_write_on_failure fsC7 "class5" "ghost" "2026-01-05" []
      rC7dup ⟨"class5", "ghost", 10, false, "Admin", ""⟩ true true 5 0 0 0).2.2.2.1
      _ _ rfl rfl rfl
  · exact (C7_no_write_on_failure fsC7 "class5" "ghost" "2026-01-05" []
      rC7dup ⟨"class5", "ghost", 10, false, "Admin", ""⟩ true true 5 0 0 0).2.2.2.2.2.2.1
      _ _ rfl rfl rfl
  · exact (C7_no_write_on_failure fsC7 "class5" "ghost" "2026-01-05" []
      rC7dup ⟨"class5", "ghost", 10, false, "Admin", ""⟩ true true 5 0 0 0).2.2.2.2.2.2.2.2.1
      _ _ rfl rfl rfl
  · exact (C7_no_write_on_failure fsC7 "class9" "ghost" "2026-01-05" []
      rC7dup ⟨"class5", "ghost", 10, false, "Admin", ""⟩ true true 5 0 0 0).2.2.2.2.2.2.2.2.2.2.2
      _ _ rfl rfl rfl

/-! ### Claim C2 (corrected) -/

/-- C2 counterexample: on a path whose stored bytes do not decode as JSON,
    `ftp_read` raises (an error), it does not return the empty mapping —
    so "missing" and "undecodable" are not observed identically. -/
theorem C2_counterexample_undecodable_raises :
    ftp_read [("p.json", FileContent.invalid)] "p.json" = .error () ∧
    ¬ ftp_read [("p.json", FileContent.invalid)] "p.json" = .ok (.dict []) :=
  ⟨rfl, fun h => Except.noConfusion
    (show (Except.error () : Except Unit PyVal) = .ok (.dict []) from h)⟩

/-- C2 (amended): the store read returns the empty mapping when the path
    does not exist, but raises when the stored bytes fail to deserialize;
    `get_all_fees` likewise returns the empty mapping for a missing
    `fees.json` and an error (HTTP 500) for an undecodable one. -/
theorem C2_read_missing_empty (fs : FS) (path : String) :
    (flookup fs path = Option.none → ftp_read fs path = .ok (.dict [])) ∧
    (flookup fs path = some .invalid → ftp_read fs path = .error ()) ∧
    (flookup fs "fees.json" = Option.none → get_all_fees fs = .ok (.dict [])) ∧
    (flookup fs "fees.json" = some .invalid → get_all_fees fs = .error .decodeError) := by
  refine ⟨?_, ?_, ?_, ?_⟩
  · intro h
    rw [ftp_read, h]
  · intro h
    rw [ftp_read, h]
  · intro h
    rw [get_all_fees, h]
  · intro h
    rw [get_all_fees, h]

theorem C2_read_missing_empty_witness :
    ftp_read ([] : FS) "never-written.json" = .ok (.dict []) ∧
    ftp_read [("f.json", FileContent.invalid)] "f.json" = .error () ∧
    get_all_fees ([] : FS) = .ok (.dict []) ∧
    get_all_fees [("fees.json", FileContent.invalid)] = .error .decodeError :=
  ⟨(C2_read_missing_empty [] "never-written.json").1 rfl,
   (C2_read_missing_empty [("f.json", FileContent.invalid)] "f.json").2.1 rfl,
   (C2_read_missing_empty [] "x").2.2.1 rfl,
   (C2_read_missing_empty [("fees.json", FileContent.invalid)] "x").2.2.2 rfl⟩

/-! ### Claim C9 (corrected) -/

def fsC9 : FS := [("math.json", .json (.dict [("s1", .dict [])]))]

/-- C9 counterexample: the served `GET /students/(class_name)` handler
    interpolates the raw class name into the path, so two spellings with the
    same normalized form behave differently: "math" finds the roster file
    while "MATH" reads a nonexistent path and reports an error — the class
    name is not normalized before use as a path segment in this operation. -/
theorem C9_counterexample_get_students_raw_name :
    normalize_class_name "MATH" = normalize_class_name "math" ∧
    (get_students fsC9 "math").status = "success" ∧
    (get_students fsC9 "MATH").status = "error" := by
  exact ⟨by decide, rfl, rfl⟩

/-- C9 (amended): every modelled class-name operation except the served
    `GET /students/(class_name)` handler uses the class name only through
    `normalize_class_name`, so spellings with equal normalized forms behave
    identically there; `get_students` alone reads the raw-name path. -/
theorem C9_amended_normalized_everywhere (fs : FS) (n1 n2 : String)
    (h : normalize_class_name n1 = normalize_class_name n2)
    (today sid cb note : String) (updates : PyDict)
    (amt conc tf lf mf : Int) (po lo gen : Bool) (rbase : AddStudentRequest) :
    create_class fs n1 = create_class fs n2 ∧
    get_class_total_fees fs n1 = get_class_total_fees fs n2 ∧
    set_fee_structure fs n1 tf lf mf = set_fee_structure fs n2 tf lf mf ∧
    delete_fee_structure fs n1 = delete_fee_structure fs n2 ∧
    add_student fs { rbase with class_name := n1 } =
      add_student fs { rbase with class_name := n2 } ∧
    update_student fs n1 sid updates = update_student fs n2 sid updates ∧
    collect_student_fee fs ⟨n1, sid, amt, gen, cb, note⟩ today po lo =
      collect_student_fee fs ⟨n2, sid, amt, gen, cb, note⟩ today po lo ∧
    update_student_concession fs n1 sid conc =
      update_student_concession fs n2 sid conc := by
  refine ⟨?_, ?_, ?_, ?_, ?_, ?_, ?_, ?_⟩
  · simp only [create_class, h]
  · simp only [get_class_total_fees, h]
  · simp only [set_fee_structure, h]
  · simp only [delete_fee_structure, h]
  · simp only [add_student, get_class_total_fees, readRosterForAdd, newStudentRecord, h]
  · simp only [update_student, h]
  · simp only [collect_student_fee, mkInvoice, h]
  · simp only [update_student_concession, h]

theorem C9_amended_normalized_everywhere_witness :
    create_class ([] : FS) " MATH " = create_class ([] : FS) "math" ∧
    get_class_total_fees ([] : FS) " MATH " = get_class_total_fees ([] : FS) "math" ∧
    set_fee_structure ([] : FS) " MATH " 1 2 3 = set_fee_structure ([] : FS) "math" 1 2 3 ∧
    delete_fee_structure ([] : FS) " MATH " = delete_fee_structure ([] : FS) "math" ∧
    add_student ([] : FS) { rC7dup with class_name := " MATH " } =
      add_student ([] : FS) { rC7dup with class_name := "math" } ∧
    update_student ([] : FS) " MATH " "s" [] = update_student ([] : FS) "math" "s" [] ∧
    collect_student_fee ([] : FS) ⟨" MATH ", "s", 1, false, "Admin", ""⟩
      "2026-01-05" true true =
      collect_student_fee ([] : FS) ⟨"math", "s", 1, false, "Admin", ""⟩
        "2026-01-05" true true ∧
    update_student_concession ([] : FS) " MATH " "s" 3 =
      update_student_concession ([] : FS) "math" "s" 3 :=
  C9_amended_normalized_everywhere [] " MATH " "math" (by decide)
    "2026-01-05" "s" "Admin" "" [] 1 3 1 2 3 true true false rC7dup
